import Mathlib

/-!
Verification of the `atmodem` response parsing engine.

The Go package parses semi-structured modem responses into typed records.
This file shallowly embeds the parsing code: strings are Lean `String`s,
Go byte/rune iteration becomes structural recursion over `String.data`,
`error` returns become `Except AtError`, and pointer-mutating methods
become explicit state passing.  Machine integers are modelled as `Int`
with explicit 64-bit range checks where Go's `strconv` and `time.Duration`
semantics make overflow observable.
-/

/-- The error taxonomy of the parsing engine.  The Go code produces ad-hoc
`errors.New`/`fmt.Errorf` values; each distinct message site is one
constructor here, matching the spec's taxonomy names. -/
inductive AtError where
  /-- Error `atmodem: empty info/status response from modem` (EmptyResponse). -/
  | emptyResponse : AtError
  /-- Error `atmodem: no key/value pair values provided for parsing` (EmptyInput). -/
  | emptyInput : AtError
  /-- Error `atmodem: malformed info line: %q` (MalformedLine). -/
  | malformedLine (l : String) : AtError
  /-- Error `atmodem: unexpected status response line with %d key/value pairs %q`
  (UnexpectedSegmentCount).  Carries the line and the key-terminator count. -/
  | unexpectedSegmentCount (l : String) (count : Nat) : AtError
  /-- Failure of `strconv.Atoi` on the given token (ConversionError, integer). -/
  | conversionInt (tok : String) : AtError
  /-- Failure of `strconv.ParseFloat` on the given token (ConversionError, float). -/
  | conversionFloat (tok : String) : AtError
  /-- Error `atmodem: cannot determine which RSRP dBm value is being parsed`
  (AmbiguousField). -/
  | ambiguousField : AtError
deriving DecidableEq

instance {ε α : Type} [DecidableEq ε] [DecidableEq α] : DecidableEq (Except ε α) :=
  fun a b =>
    match a, b with
    | .ok x, .ok y =>
      if h : x = y then isTrue (by rw [h]) else isFalse (by intro hc; cases hc; exact h rfl)
    | .error x, .error y =>
      if h : x = y then isTrue (by rw [h]) else isFalse (by intro hc; cases hc; exact h rfl)
    | .ok _, .error _ => isFalse (by intro hc; cases hc)
    | .error _, .ok _ => isFalse (by intro hc; cases hc)

/-- Characters trimmed by Go's `strings.TrimSpace` / split on by
`strings.Fields` (ASCII and Latin-1 white space; the engine's inputs are
ASCII modem output). -/
def goIsSpace (c : Char) : Bool :=
  c = ' ' || c = '\t' || c = '\n' || c = '\x0b' || c = '\x0c' || c = '\r' ||
  c = '\x85' || c = '\xa0'

/-- Go `strings.TrimSpace`: drop leading and trailing white space. -/
def goTrimSpace (s : String) : String :=
  String.mk (((s.data.dropWhile goIsSpace).reverse.dropWhile goIsSpace).reverse)

/-- Helper for `goFields`: `acc` holds the current token's characters in
reverse order. -/
def goFieldsAux : List Char → List Char → List String
  | acc, [] => if acc.isEmpty then [] else [String.mk acc.reverse]
  | acc, c :: cs =>
    if goIsSpace c then
      if acc.isEmpty then goFieldsAux [] cs
      else String.mk acc.reverse :: goFieldsAux [] cs
    else goFieldsAux (c :: acc) cs

/-- Go `strings.Fields`: split around runs of white space, no empty tokens. -/
def goFields (s : String) : List String := goFieldsAux [] s.data

/-- Helper for `goSplitN2`: split a character list at the first `:`. -/
def splitColonAux : List Char → Option (List Char × List Char)
  | [] => none
  | c :: cs =>
    if c = ':' then some ([], cs)
    else (splitColonAux cs).map fun p => (c :: p.1, p.2)

/-- Go `strings.SplitN(l, ":", 2)`: `none` models the length-1 result (no
colon present), `some (k, rest)` the two-element split at the first colon. -/
def goSplitN2 (l : String) : Option (String × String) :=
  (splitColonAux l.data).map fun p => (String.mk p.1, String.mk p.2)

/-- Go `strings.Join(ss, " ")`. -/
def joinSpace : List String → String
  | [] => ""
  | [s] => s
  | s :: rest => s ++ " " ++ joinSpace rest

/-- Helper for `goSplitComma`. -/
def goSplitCommaAux : List Char → List Char → List String
  | acc, [] => [String.mk acc.reverse]
  | acc, c :: cs =>
    if c = ',' then String.mk acc.reverse :: goSplitCommaAux [] cs
    else goSplitCommaAux (c :: acc) cs

/-- Go `strings.Split(s, ",")`: empty input yields `[""]`. -/
def goSplitComma (s : String) : List String := goSplitCommaAux [] s.data

/-- Go `strings.HasSuffix(s, ":")`. -/
def goEndsWithColon (s : String) : Bool :=
  match s.data.getLast? with
  | some ':' => true
  | _ => false

/-- Decimal value of a digit list (most significant first). -/
def digitsVal (ds : List Char) : Nat :=
  ds.foldl (fun a c => a * 10 + (c.toNat - 48)) 0

/-- Go `strconv.Atoi`: optional sign, then one or more decimal digits,
rejecting values outside the 64-bit signed range. -/
def goAtoi (s : String) : Option Int :=
  let (neg, ds) :=
    match s.data with
    | '-' :: t => (true, t)
    | '+' :: t => (false, t)
    | t => (false, t)
  if ds.isEmpty then none
  else if ds.all Char.isDigit then
    let v : Int := if neg then -(digitsVal ds : Int) else (digitsVal ds : Int)
    if -(2 ^ 63) ≤ v ∧ v ≤ 2 ^ 63 - 1 then some v else none
  else none

/-- Split a character list at the first `e`/`E` exponent marker. -/
def splitAtExpAux : List Char → List Char × Option (List Char)
  | [] => ([], none)
  | c :: cs =>
    if c = 'e' || c = 'E' then ([], some cs)
    else
      let p := splitAtExpAux cs
      (c :: p.1, p.2)

/-- Split a character list at the first `.`. -/
def splitAtDotAux : List Char → List Char × Option (List Char)
  | [] => ([], none)
  | c :: cs =>
    if c = '.' then ([], some cs)
    else
      let p := splitAtDotAux cs
      (c :: p.1, p.2)

/-- Modelled from the spec: the repository's `valueParser.Float64` helper is
absent from the sources here (only its test is present), so its
`strconv.ParseFloat` call is modelled from the spec's `AsFloat` contract:
"parses tokens[0] as a decimal floating-point value".  The numeric value is
represented exactly as a rational; no claim observes the value itself, only
success or failure. -/
def goParseFloat (s : String) : Option Rat :=
  let (neg, cs) :=
    match s.data with
    | '-' :: t => (true, t)
    | '+' :: t => (false, t)
    | t => (false, t)
  let (mant, expoPart) := splitAtExpAux cs
  let (ip, fpOpt) := splitAtDotAux mant
  let fp := fpOpt.getD []
  if ip.all Char.isDigit && fp.all Char.isDigit && !(ip.isEmpty && fp.isEmpty) then
    let expo : Option Int :=
      match expoPart with
      | none => some 0
      | some es =>
        let (eneg, eds) :=
          match es with
          | '-' :: t => (true, t)
          | '+' :: t => (false, t)
          | t => (false, t)
        if eds.isEmpty || !eds.all Char.isDigit then none
        else if eneg then some (-(digitsVal eds : Int)) else some (digitsVal eds : Int)
    match expo with
    | none => none
    | some e =>
      let m : Rat := (digitsVal (ip ++ fp) : Int)
      let v : Rat := m * (10 : Rat) ^ (e - (fp.length : Int))
      some (if neg then -v else v)
  else none

/-- Wrap an integer into the signed 64-bit range, as Go arithmetic does. -/
def wrap64 (x : Int) : Int := (x + 2 ^ 63) % 2 ^ 64 - 2 ^ 63

/-- Go `time.Duration(v) * time.Second`: nanoseconds, with 64-bit wraparound. -/
def goDurationSeconds (v : Int) : Int := wrap64 (v * 1000000000)

/-- A `valueParser` parses well-typed values from a string slice input
(`valueparser.go`).  The pointer receiver's mutation of `err` is modelled by
returning the updated parser from each operation. -/
structure valueParser where
  ss : List String
  err : Option AtError
deriving DecidableEq

/-- The constructor `newValueParser` builds a `valueParser` from the input string slice,
failing if the slice is empty, and trimming each element
(`valueparser.go` lines 20-31). -/
def newValueParser (ss : List String) : Except AtError valueParser :=
  if ss.isEmpty then .error .emptyInput
  else .ok { ss := ss.map goTrimSpace, err := none }

/-- Method `valueParser.Int` (`valueparser.go` lines 37-51): no-op returning 0 when
the sticky error is set; otherwise `strconv.Atoi` on the first element,
recording a conversion failure.  The head access is safe in Go due to the
constructor bounds check; `headD ""` covers the same domain. -/
def valueParser.Int (vp : valueParser) : Int × valueParser :=
  match vp.err with
  | some _ => (0, vp)
  | none =>
    match goAtoi (vp.ss.headD ("")) with
    | none => (0, { vp with err := some (.conversionInt (vp.ss.headD (""))) })
    | some v => (v, vp)

/-- Method `valueParser.String` (`valueparser.go` lines 54-60): empty string when
the sticky error is set, otherwise the elements joined by single spaces.
The method does not mutate the parser; it is returned unchanged. -/
def valueParser.String (vp : valueParser) : String × valueParser :=
  match vp.err with
  | some _ => ("", vp)
  | none => (joinSpace vp.ss, vp)

/-- Modelled from the spec: `valueParser.Float64` is absent from the sources
here (only its test is present).  Per the spec's `AsFloat` contract it
parses the first token as a decimal floating-point value with the same
sticky-error policy as `AsInteger`, error kind float. -/
def valueParser.Float64 (vp : valueParser) : Rat × valueParser :=
  match vp.err with
  | some _ => (0, vp)
  | none =>
    match goParseFloat (vp.ss.headD ("")) with
    | none => (0, { vp with err := some (.conversionFloat (vp.ss.headD (""))) })
    | some v => (v, vp)

/-- Method `valueParser.Err` returns the sticky error. -/
def valueParser.Err (vp : valueParser) : Option AtError := vp.err

/-- An `Info` record contains device information about a modem. -/
structure Info where
  Manufacturer : String
  Model : String
  Revision : String
  IMEI : String
  MEID : String
  FSN : String
  IMEISV : Int
  GCAP : List String
deriving DecidableEq

/-- The zero `Info` value (`var i Info`). -/
def emptyInfo : Info :=
  { Manufacturer := "", Model := "", Revision := "", IMEI := "", MEID := ""
    FSN := "", IMEISV := 0, GCAP := [] }

/-- The recognized info keys (the cases of `parseInfo`'s switch). -/
def infoKeys : List String :=
  ["Manufacturer", "Model", "Revision", "IMEI", "MEID", "IMEI SV", "FSN", "+GCAP"]

/-- The switch of `parseInfo`: dispatch on the key and assign one field via
the value parser; unrecognized keys assign nothing. -/
def infoAssign (k : String) (vp : valueParser) (rec : Info) : Info × valueParser :=
  match k with
  | "Manufacturer" => let p := vp.String; ({ rec with Manufacturer := p.1 }, p.2)
  | "Model" => let p := vp.String; ({ rec with Model := p.1 }, p.2)
  | "Revision" => let p := vp.String; ({ rec with Revision := p.1 }, p.2)
  | "IMEI" => let p := vp.String; ({ rec with IMEI := p.1 }, p.2)
  | "MEID" => let p := vp.String; ({ rec with MEID := p.1 }, p.2)
  | "IMEI SV" => let p := vp.Int; ({ rec with IMEISV := p.1 }, p.2)
  | "FSN" => let p := vp.String; ({ rec with FSN := p.1 }, p.2)
  | "+GCAP" => let p := vp.String; ({ rec with GCAP := goSplitComma p.1 }, p.2)
  | _ => (rec, vp)

/-- One iteration of `parseInfo`'s loop: split the line at its first colon
(`MalformedLine` if there is none), build a value parser from the single
remainder string, dispatch on the key, then check the sticky error. -/
def parseInfoLine (rec : Info) (l : String) : Except AtError Info :=
  match goSplitN2 l with
  | none => .error (.malformedLine l)
  | some (k, rest) =>
    match newValueParser [rest] with
    | .error e => .error e
    | .ok vp =>
      let p := infoAssign k vp rec
      match p.2.err with
      | some e => .error e
      | none => .ok p.1

/-- Function `parseInfo` unpacks an `Info` structure from a modem response. -/
def parseInfo (lines : List String) : Except AtError Info :=
  lines.foldlM parseInfoLine emptyInfo

/-- The post-transport logic of `Device.Info` (the info-record parse
operation): an empty response fails with `EmptyResponse`, otherwise the
lines are handed to `parseInfo`. -/
def infoResponse (ss : List String) : Except AtError Info :=
  if ss.isEmpty then .error .emptyResponse else parseInfo ss

/-- A `statusState` stores temporary state while parsing `Status` fields:
the zero value (unset), `rxmLast`, or `rxdLast`. -/
inductive statusState where
  | unset : statusState
  | rxmLast : statusState
  | rxdLast : statusState
deriving DecidableEq

/-- A `Status` record contains the modem's current radio status.  Go `float64`
fields are carried as exact rationals produced by the (spec-modelled)
float parser; `CurrentTime` is a `time.Duration` in nanoseconds. -/
structure Status where
  CurrentTime : Int
  Temperature : Int
  ResetCounter : Int
  Mode : String
  SystemMode : String
  PSState : String
  LTEBand : String
  LTEBandwidthMHz : Rat
  LTEReceiveChannel : Int
  LTETransmitChannel : Int
  LTECAState : String
  EMMState : String
  RRCState : String
  IMSRegState : String
  PCCRXMRSSI : Int
  RSRPRXMdBm : Int
  PCCRXDRSSI : Int
  RSRPRXDdBm : Int
  TransmitPower : Int
  TAC : String
  CellID : String
  RSRQdB : Rat
  SINRdB : Rat
  state : statusState
deriving DecidableEq

/-- The zero `Status` value (`var s Status`). -/
def emptyStatus : Status :=
  { CurrentTime := 0, Temperature := 0, ResetCounter := 0, Mode := ""
    SystemMode := "", PSState := "", LTEBand := "", LTEBandwidthMHz := 0
    LTEReceiveChannel := 0, LTETransmitChannel := 0, LTECAState := ""
    EMMState := "", RRCState := "", IMSRegState := "", PCCRXMRSSI := 0
    RSRPRXMdBm := 0, PCCRXDRSSI := 0, RSRPRXDdBm := 0, TransmitPower := 0
    TAC := "", CellID := "", RSRQdB := 0, SINRdB := 0, state := .unset }

/-- The recognized status keys (the cases of `Status.parse`'s switch). -/
def statusKeys : List String :=
  ["Current Time:", "Temperature:", "Reset Counter:", "Mode:", "System mode:",
   "PS state:", "LTE band:", "LTE bw:", "LTE Rx chan:", "LTE Tx chan:",
   "LTE CA state:", "EMM state:", "RRC state:", "IMS reg state:",
   "PCC RxM RSSI:", "PCC RxD RSSI:", "RSRP (dBm):", "Tx Power:", "TAC:",
   "Cell ID:", "RSRQ (dB):", "SINR (dB):"]

/-- The switch of `Status.parse`: dispatch on the joined key and assign one
field via the value parser.  `PCC RxM RSSI:`/`PCC RxD RSSI:` also set the
disambiguation state; `RSRP (dBm):` reads it, failing with
`AmbiguousField` when it is still unset.  Unrecognized keys assign
nothing. -/
def statusAssign (k : String) (vp : valueParser) (s : Status) :
    Except AtError (Status × valueParser) :=
  match k with
  | "Current Time:" =>
    let p := vp.Int; .ok ({ s with CurrentTime := goDurationSeconds p.1 }, p.2)
  | "Temperature:" => let p := vp.Int; .ok ({ s with Temperature := p.1 }, p.2)
  | "Reset Counter:" => let p := vp.Int; .ok ({ s with ResetCounter := p.1 }, p.2)
  | "Mode:" => let p := vp.String; .ok ({ s with Mode := p.1 }, p.2)
  | "System mode:" => let p := vp.String; .ok ({ s with SystemMode := p.1 }, p.2)
  | "PS state:" => let p := vp.String; .ok ({ s with PSState := p.1 }, p.2)
  | "LTE band:" => let p := vp.String; .ok ({ s with LTEBand := p.1 }, p.2)
  | "LTE bw:" =>
    let p := vp.Float64; .ok ({ s with LTEBandwidthMHz := p.1 }, p.2)
  | "LTE Rx chan:" =>
    let p := vp.Int; .ok ({ s with LTEReceiveChannel := p.1 }, p.2)
  | "LTE Tx chan:" =>
    let p := vp.Int; .ok ({ s with LTETransmitChannel := p.1 }, p.2)
  | "LTE CA state:" => let p := vp.String; .ok ({ s with LTECAState := p.1 }, p.2)
  | "EMM state:" => let p := vp.String; .ok ({ s with EMMState := p.1 }, p.2)
  | "RRC state:" => let p := vp.String; .ok ({ s with RRCState := p.1 }, p.2)
  | "IMS reg state:" => let p := vp.String; .ok ({ s with IMSRegState := p.1 }, p.2)
  | "PCC RxM RSSI:" =>
    let p := vp.Int; .ok ({ s with PCCRXMRSSI := p.1, state := .rxmLast }, p.2)
  | "PCC RxD RSSI:" =>
    let p := vp.Int; .ok ({ s with PCCRXDRSSI := p.1, state := .rxdLast }, p.2)
  | "RSRP (dBm):" =>
    match s.state with
    | .rxmLast => let p := vp.Int; .ok ({ s with RSRPRXMdBm := p.1 }, p.2)
    | .rxdLast => let p := vp.Int; .ok ({ s with RSRPRXDdBm := p.1 }, p.2)
    | .unset => .error .ambiguousField
  | "Tx Power:" => let p := vp.Int; .ok ({ s with TransmitPower := p.1 }, p.2)
  | "TAC:" => let p := vp.String; .ok ({ s with TAC := p.1 }, p.2)
  | "Cell ID:" => let p := vp.String; .ok ({ s with CellID := p.1 }, p.2)
  | "RSRQ (dB):" => let p := vp.Float64; .ok ({ s with RSRQdB := p.1 }, p.2)
  | "SINR (dB):" => let p := vp.Float64; .ok ({ s with SINRdB := p.1 }, p.2)
  | _ => .ok (s, vp)

/-- The loop body of `Status.parse` over a segment's tokens.  `pre` holds
the tokens already visited (the Go loop index), `rest` the tokens still to
visit.  At each colon-terminated token the key is the space-join of every
token from the start of the segment through that token, and the values are
all following tokens; after the segment's switch the sticky error is
checked, and the loop resumes at the next token. -/
def statusParseAux : List String → List String → Status → Except AtError Status
  | _, [], s => .ok s
  | pre, t :: rest, s =>
    if goEndsWithColon t then
      match newValueParser rest with
      | .error e => .error e
      | .ok vp =>
        match statusAssign (joinSpace (pre ++ [t])) vp s with
        | .error e => .error e
        | .ok p =>
          match p.2.err with
          | some e => .error e
          | none => statusParseAux (pre ++ [t]) rest p.1
    else statusParseAux (pre ++ [t]) rest s

/-- Method `Status.parse` parses a key/value pair string slice into fields of
`Status`. -/
def Status.parse (s : Status) (ss : List String) : Except AtError Status :=
  statusParseAux [] ss s

/-- Positions of the key-terminator tokens (those ending in `:`) among a
line's whitespace-delimited tokens. -/
def lineIndices (toks : List String) : List Nat :=
  (toks.enum.filter fun p => goEndsWithColon p.2).map Prod.fst

/-- Number of key-terminator tokens on a line. -/
def keyTerminatorCount (l : String) : Nat := (lineIndices (goFields l)).length

/-- The per-line body of `parseStatus` for non-header lines: split into
tokens, count key terminators, and parse one segment (count 1), two
segments split at `indices[0] + 2` (count 2), or fail with
`UnexpectedSegmentCount` otherwise. -/
def parseStatusLine (s : Status) (l : String) : Except AtError Status :=
  let toks := goFields l
  let idxs := lineIndices toks
  match idxs with
  | [_] => s.parse toks
  | [i1, _] =>
    match s.parse (toks.take (i1 + 2)) with
    | .error e => .error e
    | .ok s1 => s1.parse (toks.drop (i1 + 2))
  | _ => .error (.unexpectedSegmentCount l idxs.length)

/-- Function `parseStatus` unpacks a `Status` structure from a modem response.  The
first line is the `!GSTATUS:` response header and is skipped
unconditionally. -/
def parseStatus (lines : List String) : Except AtError Status :=
  match lines with
  | [] => .ok emptyStatus
  | _ :: rest => rest.foldlM parseStatusLine emptyStatus

/-- The post-transport logic of `Device.Status` (the status-record parse
operation): an empty response fails with `EmptyResponse`, otherwise the
lines are handed to `parseStatus`. -/
def statusResponse (ss : List String) : Except AtError Status :=
  if ss.isEmpty then .error .emptyResponse else parseStatus ss

/-- Classifier for sticky errors a value parser can produce by itself:
none, or a conversion error (integer or float). -/
def benignErr : Option AtError → Bool
  | none => true
  | some (.conversionInt _) => true
  | some (.conversionFloat _) => true
  | some _ => false

/-- Classifier: is this result an `UnexpectedSegmentCount` error? -/
def isSegCountErr {α : Type} : Except AtError α → Bool
  | .error (.unexpectedSegmentCount _ _) => true
  | _ => false

/-- Classifier: is this result an `EmptyInput` error? -/
def isEmptyInputErr {α : Type} : Except AtError α → Bool
  | .error .emptyInput => true
  | _ => false

/-- Token-list predicate mirroring `Status.parse`'s traversal: starting
from the already-visited prefix `pre`, every key-terminator token in the
remaining tokens yields a key (the space-join of the whole prefix through
that token) outside the recognized table, and has at least one token after
it. -/
def unrecognizedKeysOnly : List String → List String → Bool
  | _, [] => true
  | pre, t :: rest =>
    ((!goEndsWithColon t) ||
      ((!(statusKeys.contains (joinSpace (pre ++ [t])))) && (!rest.isEmpty))) &&
    unrecognizedKeysOnly (pre ++ [t]) rest

/-- A successful construction from a non-empty token list retains the
trimmed tokens with no sticky error. -/
theorem newValueParser_cons (x : String) (xs : List String) :
    newValueParser (x :: xs) = .ok { ss := (x :: xs).map goTrimSpace, err := none } := by
  simp [newValueParser]

/-- Specialization of `newValueParser_cons` to a singleton input. -/
theorem newValueParser_one (x : String) :
    newValueParser [x] = .ok { ss := [goTrimSpace x], err := none } := by
  simp [newValueParser]

/-- An integer extraction from an error-free parser leaves either no sticky
error or an integer conversion error. -/
theorem vpInt_benign (vp : valueParser) (h : vp.err = none) :
    benignErr (vp.Int).2.err = true := by
  unfold valueParser.Int
  rw [h]
  simp only
  split <;> simp [benignErr, h]

/-- A float extraction from an error-free parser leaves either no sticky
error or a float conversion error. -/
theorem vpFloat_benign (vp : valueParser) (h : vp.err = none) :
    benignErr (vp.Float64).2.err = true := by
  unfold valueParser.Float64
  rw [h]
  simp only
  split <;> simp [benignErr, h]

/-- The joined-string extraction never mutates the parser. -/
theorem vpString_snd (vp : valueParser) : (vp.String).2 = vp := by
  unfold valueParser.String
  split <;> rfl

/-- The only error the status dispatch itself returns is `AmbiguousField`. -/
theorem statusAssign_error_eq (k : String) (vp : valueParser) (s : Status) (e : AtError)
    (h : statusAssign k vp s = .error e) : e = .ambiguousField := by
  unfold statusAssign at h
  split at h <;> try simp_all
  split at h <;> simp_all

/-- A successful status dispatch from an error-free parser leaves at most a
conversion error sticky. -/
theorem statusAssign_ok_benign (k : String) (vp : valueParser) (s : Status)
    (p : Status × valueParser) (hvp : vp.err = none)
    (h : statusAssign k vp s = .ok p) : benignErr p.2.err = true := by
  unfold statusAssign at h
  split at h <;>
    try (cases h; first
      | exact vpInt_benign vp hvp
      | exact vpFloat_benign vp hvp
      | (rw [vpString_snd vp, hvp]; rfl)
      | (rw [hvp]; rfl))
  split at h <;> cases h <;> exact vpInt_benign vp hvp

/-- An unrecognized key makes the status dispatch a no-op. -/
theorem statusAssign_unrecognized (k : String) (vp : valueParser) (s : Status)
    (h : statusKeys.contains k = false) : statusAssign k vp s = .ok (s, vp) := by
  unfold statusAssign
  split <;> simp_all [statusKeys]

/-- An unrecognized key makes the info dispatch a no-op. -/
theorem infoAssign_unrecognized (k : String) (vp : valueParser) (rec : Info)
    (h : infoKeys.contains k = false) : infoAssign k vp rec = (rec, vp) := by
  unfold infoAssign
  split <;> simp_all [infoKeys]

/-- The info dispatch from an error-free parser leaves at most an integer
conversion error sticky. -/
theorem infoAssign_benign (k : String) (vp : valueParser) (rec : Info)
    (hvp : vp.err = none) : benignErr (infoAssign k vp rec).2.err = true := by
  unfold infoAssign
  split <;> first
    | exact vpInt_benign vp hvp
    | (rw [vpString_snd vp, hvp]; rfl)
    | (rw [hvp]; rfl)

/-- A benign error is never an `UnexpectedSegmentCount` error. -/
theorem benign_not_segcount (e : AtError) (h : benignErr (some e) = true) :
    isSegCountErr (Except.error e : Except AtError Status) = false := by
  cases e <;> simp_all [benignErr, isSegCountErr]

/-- The segment loop of `Status.parse` never produces an
`UnexpectedSegmentCount` error. -/
theorem statusParseAux_not_segcount (rest pre : List String) (s : Status) :
    isSegCountErr (statusParseAux pre rest s) = false := by
  induction rest generalizing pre s with
  | nil => rfl
  | cons t rest ih =>
    unfold statusParseAux
    by_cases hc : goEndsWithColon t
    · simp only [hc, if_true]
      cases rest with
      | nil => rfl
      | cons y ys =>
        rw [newValueParser_cons]
        simp only
        rcases ha : statusAssign (joinSpace (pre ++ [t]))
            { ss := (y :: ys).map goTrimSpace, err := none } s with e | p
        · have he := statusAssign_error_eq _ _ _ _ ha
          subst he
          rfl
        · have hb := statusAssign_ok_benign _ _ _ _ rfl ha
          rcases he : p.2.err with _ | e
          · simp only [he]
            exact ih _ _
          · rw [he] at hb
            simp only [he]
            exact benign_not_segcount e hb
    · simp only [hc, if_false]
      exact ih _ _

/-- Lift of `statusParseAux_not_segcount` to `Status.parse`. -/
theorem statusParse_not_segcount (s : Status) (ss : List String) :
    isSegCountErr (s.parse ss) = false :=
  statusParseAux_not_segcount ss [] s

/-- A segment whose keys are all unrecognized and all have value tokens is
parsed to completion without changing the record. -/
theorem statusParseAux_unrecognized (rest pre : List String) (s : Status)
    (h : unrecognizedKeysOnly pre rest = true) : statusParseAux pre rest s = .ok s := by
  induction rest generalizing pre s with
  | nil => rfl
  | cons t rest ih =>
    unfold unrecognizedKeysOnly at h
    rw [Bool.and_eq_true] at h
    obtain ⟨h1, h2⟩ := h
    unfold statusParseAux
    by_cases hc : goEndsWithColon t
    · simp only [hc, if_true]
      rw [hc] at h1
      simp only [Bool.not_true, Bool.false_or, Bool.and_eq_true, Bool.not_eq_true'] at h1
      obtain ⟨hk, hr⟩ := h1
      cases rest with
      | nil => simp at hr
      | cons y ys =>
        rw [newValueParser_cons]
        simp only
        rw [statusAssign_unrecognized _ _ _ hk]
        exact ih _ _ h2
    · simp only [hc, if_false]
      exact ih _ _ h2

/-- An info line that splits at a colon into an unrecognized key parses to
completion without changing the record. -/
theorem parseInfoLine_unrecognized (rec : Info) (l k rest : String)
    (hsplit : goSplitN2 l = some (k, rest)) (hk : infoKeys.contains k = false) :
    parseInfoLine rec l = .ok rec := by
  unfold parseInfoLine
  rw [hsplit]
  dsimp only
  rw [newValueParser_one rest]
  simp only
  rw [infoAssign_unrecognized _ _ _ hk]

/-- A benign error is never an `EmptyInput` error. -/
theorem benign_not_emptyInput (e : AtError) (h : benignErr (some e) = true) :
    isEmptyInputErr (Except.error e : Except AtError Info) = false := by
  cases e <;> simp_all [benignErr, isEmptyInputErr]

/-- The info line parser never produces an `EmptyInput` error: its value
parser is always built from exactly one (possibly empty) token. -/
theorem parseInfoLine_not_emptyInput (rec : Info) (l : String) :
    isEmptyInputErr (parseInfoLine rec l) = false := by
  unfold parseInfoLine
  rcases goSplitN2 l with _ | ⟨k, rest⟩
  · rfl
  · dsimp only
    rw [newValueParser_one rest]
    simp only
    have hb := infoAssign_benign k { ss := [goTrimSpace rest], err := none } rec rfl
    rcases he : (infoAssign k { ss := [goTrimSpace rest], err := none } rec).2.err with _ | e
    · simp only [he]; rfl
    · rw [he] at hb
      simp only [he]
      exact benign_not_emptyInput e hb

/-- The status dispatch of the RSRP key while the disambiguation state is
unset fails with `AmbiguousField`. -/
theorem statusAssign_rsrp_unset (vp : valueParser) (s : Status) (h : s.state = .unset) :
    statusAssign ("RSRP (dBm):") vp s = .error .ambiguousField := by
  have hm : statusAssign ("RSRP (dBm):") vp s =
      (match s.state with
       | .rxmLast => let p := vp.Int; .ok ({ s with RSRPRXMdBm := p.1 }, p.2)
       | .rxdLast => let p := vp.Int; .ok ({ s with RSRPRXDdBm := p.1 }, p.2)
       | .unset => .error .ambiguousField) := rfl
  rw [hm, h]

/-- Claim C1: for the empty input line sequence, the info-record parse
operation and the status-record parse operation each fail with the
`EmptyResponse` error and return no record. -/
theorem c1_empty_response_fails :
    infoResponse [] = .error .emptyResponse ∧
    statusResponse [] = .error .emptyResponse :=
  ⟨rfl, rfl⟩

/-- Claim C2: once a value parser's sticky error is set, the integer
extraction returns 0 and the joined-string extraction returns the empty
string, and both leave the parser (in particular its sticky error)
unchanged; no extraction operation ever clears the error. -/
theorem c2_sticky_error_idempotent (vp : valueParser) (e : AtError)
    (h : vp.err = some e) :
    (vp.Int).1 = 0 ∧ (vp.Int).2 = vp ∧ (vp.String).1 = "" ∧ (vp.String).2 = vp := by
  unfold valueParser.Int valueParser.String
  rw [h]
  exact ⟨rfl, rfl, rfl, rfl⟩

/-- Witness for C2 at a concrete parser with a sticky error. -/
theorem c2_sticky_error_idempotent_witness :
    ((valueParser.mk ["7"] (some .ambiguousField)).Int).1 = 0 ∧
    ((valueParser.mk ["7"] (some .ambiguousField)).Int).2 =
      valueParser.mk ["7"] (some .ambiguousField) ∧
    ((valueParser.mk ["7"] (some .ambiguousField)).String).1 = "" ∧
    ((valueParser.mk ["7"] (some .ambiguousField)).String).2 =
      valueParser.mk ["7"] (some .ambiguousField) :=
  c2_sticky_error_idempotent (valueParser.mk ["7"] (some .ambiguousField))
    .ambiguousField rfl

/-- Counterexample for C3 as stated: constructing from the non-empty token
sequence `[" a"]` succeeds, but the retained token is the trimmed `"a"`,
not the original `" a"` — tokens are not retained verbatim. -/
theorem c3_retention_counterexample :
    ¬ ∃ vp, newValueParser [" a"] = .ok vp ∧ vp.ss = [" a"] := by
  intro hex
  rcases hex with ⟨vp, h1, h2⟩
  rw [show newValueParser [" a"] = .ok { ss := ["a"], err := none } from by decide] at h1
  cases h1
  exact absurd h2 (by decide)

/-- Claim C3, amended: construction from zero tokens always fails with
`EmptyInput` (and, being a total function, never panics); construction
from any non-empty token sequence succeeds with no sticky error, retaining
every token in order after trimming leading/trailing whitespace (tokens
already trimmed are retained verbatim). -/
theorem c3_construct_nonempty (ss : List String) (h : ss ≠ []) :
    newValueParser [] = .error .emptyInput ∧
    ∃ vp, newValueParser ss = .ok vp ∧ vp.ss = ss.map goTrimSpace ∧ vp.err = none := by
  refine ⟨rfl, ?_⟩
  cases ss with
  | nil => exact absurd rfl h
  | cons x xs => exact ⟨_, newValueParser_cons x xs, rfl, rfl⟩

/-- Witness for C3 at the concrete token sequence `[" a"]`. -/
theorem c3_construct_nonempty_witness :
    newValueParser [] = .error .emptyInput ∧
    ∃ vp, newValueParser [" a"] = .ok vp ∧ vp.ss = [" a"].map goTrimSpace ∧
      vp.err = none :=
  c3_construct_nonempty [" a"] (by decide)

/-- Counterexample for C4 as stated: given exactly the single line, the
status parser consumes it as the response header, so the record keeps
current time 0 and temperature 0 instead of 71465 seconds and 41. -/
theorem c4_headerless_counterexample :
    (parseStatus ["Current Time:  71465   Temperature: 41"]).toOption.map
      (fun s => (s.CurrentTime, s.Temperature)) = some (0, 0) ∧
    (0 : Int) ≠ 71465 * 1000000000 ∧ (0 : Int) ≠ 41 :=
  ⟨by decide, by decide, by decide⟩

/-- Claim C4, amended: when the status parser is given the response header
line followed by the line `"Current Time:  71465   Temperature: 41"`, the
record has current time 71465 seconds (71465 billion nanoseconds) and
temperature 41. -/
theorem c4_current_time_temperature :
    (parseStatus ["!GSTATUS:", "Current Time:  71465   Temperature: 41"]).toOption.map
      (fun s => (s.CurrentTime, s.Temperature)) = some (71465 * 1000000000, 41) := by
  decide

/-- Counterexample for C5 as stated: given exactly the two lines, the first
is consumed as the response header, so the RxM-associated RSRP field stays
0 instead of receiving -113. -/
theorem c5_headerless_counterexample :
    (parseStatus ["PCC RxM RSSI:  -84   RSRP (dBm):  -113",
                  "PCC RxD RSSI:  -84   RSRP (dBm):  -111"]).toOption.map
      (fun s => (s.RSRPRXMdBm, s.RSRPRXDdBm)) = some (0, -111) ∧
    (0 : Int) ≠ -113 :=
  ⟨by decide, by decide⟩

/-- Claim C5, amended: when the status parser is given the response header
line followed by the RxM line and then the RxD line, the first RSRP value
(-113) lands in the RxM-associated field and the second (-111) in the
RxD-associated field. -/
theorem c5_rsrp_routing :
    (parseStatus ["!GSTATUS:",
                  "PCC RxM RSSI:  -84   RSRP (dBm):  -113",
                  "PCC RxD RSSI:  -84   RSRP (dBm):  -111"]).toOption.map
      (fun s => (s.PCCRXMRSSI, s.RSRPRXMdBm, s.PCCRXDRSSI, s.RSRPRXDdBm)) =
      some (-84, -113, -84, -111) := by
  decide

/-- Counterexample for C6 as stated: a record whose only post-header line
contains the key `"RSRP (dBm):"` with no value tokens, and no preceding
RxM/RxD key, fails with `EmptyInput` (from the value-parser constructor),
not with `AmbiguousField`. -/
theorem c6_no_value_counterexample :
    parseStatus ["!GSTATUS:", "RSRP (dBm):"] = .error .emptyInput ∧
    AtError.emptyInput ≠ .ambiguousField :=
  ⟨by decide, by decide⟩

/-- Claim C6, amended: whenever the status segment parser reaches the key
`"RSRP (dBm):"` with at least one value token while the disambiguation
state is still unset (no `PCC RxM RSSI:` or `PCC RxD RSSI:` key processed
earlier), the parse fails with `AmbiguousField`; with zero value tokens it
fails with `EmptyInput` before the key is dispatched. -/
theorem c6_rsrp_unset_ambiguous (s : Status) (h : s.state = .unset)
    (v : String) (vs : List String) :
    Status.parse s ("RSRP" :: "(dBm):" :: v :: vs) = .error .ambiguousField := by
  unfold Status.parse statusParseAux
  rw [show goEndsWithColon ("RSRP") = false from rfl]
  simp only [Bool.false_eq_true, if_false]
  unfold statusParseAux
  rw [show goEndsWithColon ("(dBm):") = true from rfl]
  simp only [if_true]
  rw [newValueParser_cons]
  simp only
  rw [show joinSpace ([] ++ ["RSRP"] ++ ["(dBm):"]) = "RSRP (dBm):" from rfl]
  rw [statusAssign_rsrp_unset _ _ h]

/-- Witness for C6 at the fresh record and a concrete segment. -/
theorem c6_rsrp_unset_ambiguous_witness :
    Status.parse emptyStatus ["RSRP", "(dBm):", "-113"] = .error .ambiguousField :=
  c6_rsrp_unset_ambiguous emptyStatus rfl "-113" []

/-- Claim C7: a post-header status line with zero or at least three
key-terminator tokens fails with `UnexpectedSegmentCount` carrying that
line and the terminator count; a line with exactly one or exactly two
key-terminators never produces an `UnexpectedSegmentCount` error. -/
theorem c7_segment_count (s : Status) (l : String) :
    (keyTerminatorCount l = 0 ∨ 3 ≤ keyTerminatorCount l →
      parseStatusLine s l = .error (.unexpectedSegmentCount l (keyTerminatorCount l)))
    ∧ ((keyTerminatorCount l = 1 ∨ keyTerminatorCount l = 2) →
      isSegCountErr (parseStatusLine s l) = false) := by
  unfold keyTerminatorCount parseStatusLine
  dsimp only
  rcases hidx : lineIndices (goFields l) with _ | ⟨a, _ | ⟨b, _ | ⟨c, t⟩⟩⟩
  · exact ⟨fun _ => rfl, fun hc => by simp at hc⟩
  · exact ⟨fun hc => by simp at hc, fun _ => statusParse_not_segcount s (goFields l)⟩
  · refine ⟨fun hc => by simp at hc, fun _ => ?_⟩
    dsimp only
    rcases hp : s.parse ((goFields l).take (a + 2)) with e | s1
    · have hns := statusParse_not_segcount s ((goFields l).take (a + 2))
      rw [hp] at hns
      exact hns
    · exact statusParse_not_segcount s1 ((goFields l).drop (a + 2))
  · exact ⟨fun _ => rfl, fun hc => by rcases hc with hc | hc <;> simp at hc⟩

/-- Witness for C7 at concrete lines with 0, 3, 1 and 2 key terminators. -/
theorem c7_segment_count_witness :
    parseStatusLine emptyStatus ("foo") = .error (.unexpectedSegmentCount "foo" 0) ∧
    parseStatusLine emptyStatus ("foo: bar bar: baz baz: qux") =
      .error (.unexpectedSegmentCount "foo: bar bar: baz baz: qux" 3) ∧
    isSegCountErr (parseStatusLine emptyStatus ("IMS reg state: No Srv")) = false ∧
    isSegCountErr (parseStatusLine emptyStatus ("Current Time: 71465 Temperature: 41")) =
      false :=
  ⟨(c7_segment_count emptyStatus "foo").1 (Or.inl (by decide)),
   (c7_segment_count emptyStatus "foo: bar bar: baz baz: qux").1 (Or.inr (by decide)),
   (c7_segment_count emptyStatus "IMS reg state: No Srv").2 (Or.inl (by decide)),
   (c7_segment_count emptyStatus "Current Time: 71465 Temperature: 41").2
     (Or.inr (by decide))⟩

/-- Counterexample for C8 as stated: on a parser built from the token list
`["a"]` whose integer extraction has failed (setting the sticky error),
the joined-string extraction returns the empty string, not the joined
tokens `"a"` — so its result does depend on the extractor's prior state. -/
theorem c8_sticky_counterexample :
    newValueParser ["a"] = .ok (valueParser.mk ["a"] none) ∧
    ((valueParser.mk ["a"] none).Int).2 =
      valueParser.mk ["a"] (some (.conversionInt "a")) ∧
    ((valueParser.mk ["a"] (some (.conversionInt "a"))).String).1 = "" ∧
    joinSpace ["a"] = "a" ∧ ("" : String) ≠ "a" :=
  ⟨by decide, by decide, by decide, by decide, by decide⟩

/-- Claim C8, amended: while no sticky error is set, the joined-string
extraction returns all tokens joined with single spaces in order, never
fails, and leaves the parser unchanged; once the sticky error is set it
returns the empty string instead (and still leaves the parser unchanged). -/
theorem c8_joined_string_no_error (vp : valueParser) (h : vp.err = none) :
    (vp.String).1 = joinSpace vp.ss ∧ (vp.String).2 = vp := by
  unfold valueParser.String
  rw [h]
  exact ⟨rfl, rfl⟩

/-- Witness for C8 at a concrete error-free parser. -/
theorem c8_joined_string_no_error_witness :
    ((valueParser.mk ["a", "b"] none).String).1 = joinSpace ["a", "b"] ∧
    ((valueParser.mk ["a", "b"] none).String).2 = valueParser.mk ["a", "b"] none :=
  c8_joined_string_no_error (valueParser.mk ["a", "b"] none) rfl

/-- Counterexample for C9 as stated: the status line `"Foo:"` has an
unrecognized key but zero value tokens, and parsing it fails with
`EmptyInput` instead of succeeding without error. -/
theorem c9_no_value_counterexample :
    statusKeys.contains ("Foo:") = false ∧
    parseStatusLine emptyStatus ("Foo:") = .error .emptyInput :=
  ⟨by decide, by decide⟩

/-- Claim C9, amended: an info line whose key (the text before the first
colon) is unrecognized parses successfully with every field unchanged; a
status segment in which every key-terminator token yields an unrecognized
key and is followed by at least one value token parses successfully with
every field (and the disambiguation state) unchanged — but a trailing
key-terminator with no value tokens fails with `EmptyInput` even for an
unrecognized key. -/
theorem c9_unrecognized_keys_ignored :
    (∀ (rec : Info) (l k rest : String), goSplitN2 l = some (k, rest) →
      infoKeys.contains k = false → parseInfoLine rec l = .ok rec)
    ∧ (∀ (s : Status) (toks : List String), unrecognizedKeysOnly [] toks = true →
      Status.parse s toks = .ok s) :=
  ⟨parseInfoLine_unrecognized,
   fun s toks h => statusParseAux_unrecognized toks [] s h⟩

/-- Witness for C9 at a concrete unrecognized info line and status segment. -/
theorem c9_unrecognized_keys_ignored_witness :
    parseInfoLine emptyInfo ("Foo: bar") = .ok emptyInfo ∧
    Status.parse emptyStatus ["Foo:", "bar"] = .ok emptyStatus :=
  ⟨c9_unrecognized_keys_ignored.1 emptyInfo "Foo: bar" "Foo" " bar"
     (by decide) (by decide),
   c9_unrecognized_keys_ignored.2 emptyStatus ["Foo:", "bar"] (by decide)⟩

/-- Counterexample for C10 as stated: `"IMEI SV"` is a recognized key, but
an info line with that key and only whitespace after the colon fails with
an integer conversion error on the empty token instead of succeeding. -/
theorem c10_imeisv_counterexample :
    infoKeys.contains ("IMEI SV") = true ∧
    parseInfoLine emptyInfo ("IMEI SV:  ") = .error (.conversionInt "") :=
  ⟨by decide, by decide⟩

/-- Claim C10, amended: for every info line that splits at its first colon
into a recognized string-typed key and a remainder containing only
whitespace (possibly none), the parse succeeds and assigns the empty
string to that key's field (the single-element list containing the empty
string for the capability field); for the integer-typed key `"IMEI SV"`
every such line fails with an integer `ConversionError` on the empty token
— not with `EmptyInput`; the info line parser can never fail with
`EmptyInput`, because its extractor is always constructed from exactly one
(possibly empty) token. -/
theorem c10_empty_value_info :
    (∀ (rec : Info) (l rest : String), goTrimSpace rest = "" →
      (goSplitN2 l = some ("Manufacturer", rest) →
        parseInfoLine rec l = .ok { rec with Manufacturer := "" }) ∧
      (goSplitN2 l = some ("Model", rest) →
        parseInfoLine rec l = .ok { rec with Model := "" }) ∧
      (goSplitN2 l = some ("Revision", rest) →
        parseInfoLine rec l = .ok { rec with Revision := "" }) ∧
      (goSplitN2 l = some ("IMEI", rest) →
        parseInfoLine rec l = .ok { rec with IMEI := "" }) ∧
      (goSplitN2 l = some ("MEID", rest) →
        parseInfoLine rec l = .ok { rec with MEID := "" }) ∧
      (goSplitN2 l = some ("FSN", rest) →
        parseInfoLine rec l = .ok { rec with FSN := "" }) ∧
      (goSplitN2 l = some ("+GCAP", rest) →
        parseInfoLine rec l = .ok { rec with GCAP := [""] }) ∧
      (goSplitN2 l = some ("IMEI SV", rest) →
        parseInfoLine rec l = .error (.conversionInt "")))
    ∧ (∀ (rec : Info) (l : String), isEmptyInputErr (parseInfoLine rec l) = false) := by
  refine ⟨fun rec l rest htrim => ?_, parseInfoLine_not_emptyInput⟩
  refine ⟨fun hsplit => ?_, fun hsplit => ?_, fun hsplit => ?_, fun hsplit => ?_,
    fun hsplit => ?_, fun hsplit => ?_, fun hsplit => ?_, fun hsplit => ?_⟩ <;>
    (unfold parseInfoLine
     rw [hsplit]
     dsimp only
     rw [newValueParser_one rest, htrim]
     rfl)

/-- Witness for C10 at concrete whitespace tails: a bare colon, a tab tail
and a two-space tail. -/
theorem c10_empty_value_info_witness :
    parseInfoLine emptyInfo ("Manufacturer:") = .ok { emptyInfo with Manufacturer := "" } ∧
    parseInfoLine emptyInfo ("+GCAP:\t") = .ok { emptyInfo with GCAP := [""] } ∧
    parseInfoLine emptyInfo ("IMEI SV:  ") = .error (.conversionInt "") ∧
    isEmptyInputErr (parseInfoLine emptyInfo ("IMEI SV:  ")) = false :=
  ⟨(c10_empty_value_info.1 emptyInfo "Manufacturer:" "" (by decide)).1 (by decide),
   (c10_empty_value_info.1 emptyInfo "+GCAP:\t" "\t" (by decide)).2.2.2.2.2.2.1 (by decide),
   (c10_empty_value_info.1 emptyInfo "IMEI SV:  " "  " (by decide)).2.2.2.2.2.2.2 (by decide),
   c10_empty_value_info.2 emptyInfo "IMEI SV:  "⟩
